import Mathlib

/-!
Shallow embedding of the PFE-backend test-generation-and-verification
pipeline (files `utils/tools.py`, `utils/nodes.py`, `utils/pipe_nodes.py`).

External collaborators (the Snowflake session, the Azure blob client, the
generation oracle and the two `re.search` calls) are modelled as explicit
oracle inputs; every function of the repository that a claim touches is
translated into a pure Lean function over those inputs.  Side effects
(warehouse statements, uploads, oracle calls) are returned as an explicit
effect list.
-/

namespace PFE

/-! ### Python value helpers -/

/-- Result value of a Python function that can fall off the end of an
`except` branch: either a `bool` or `None`. -/
inductive PyVal where
  | pybool (b : Bool)
  | pynone
  deriving DecidableEq, Repr

/-- Python truthiness of a `PyVal`. -/
def PyVal.truthy : PyVal → Bool
  | .pybool b => b
  | .pynone => false

/-! Python string primitives are modelled by structurally recursive
functions over the character list of a `String`, so that every use is
evaluable by the kernel. -/

/-- Whether `hay` starts with `needle`. -/
def startsWithChars : List Char → List Char → Bool
  | _, [] => true
  | [], _ :: _ => false
  | c :: cs, d :: ds => c = d && startsWithChars cs ds

/-- Whether `needle` occurs contiguously in `hay`. -/
def containsSub (hay needle : List Char) : Bool :=
  startsWithChars hay needle ||
    match hay with
    | [] => false
    | _ :: cs => containsSub cs needle

/-- Python substring test `needle in hay`. -/
def pyContains (hay needle : String) : Bool :=
  containsSub hay.data needle.data

/-- Python `s.startswith(pre)`. -/
def pyStartsWith (s pre : String) : Bool :=
  startsWithChars s.data pre.data

/-- Characters removed by Python `str.strip()` with no argument. -/
def isPySpace (c : Char) : Bool :=
  c = ' ' || c = '\t' || c = '\n' || c = '\x0d' || c = '\x0b' || c = '\x0c'

/-- Python `s.strip()`. -/
def pyStrip (s : String) : String :=
  String.mk (((s.data.dropWhile isPySpace).reverse.dropWhile isPySpace).reverse)

/-- Python `s.lower()` (ASCII). -/
def pyLower (s : String) : String :=
  String.mk (s.data.map Char.toLower)

/-- Python `s.upper()` (ASCII). -/
def pyUpper (s : String) : String :=
  String.mk (s.data.map Char.toUpper)

/-- Splits a character list at every occurrence of a separator character
(Python `str.split` with a one-character separator). -/
def splitOnChar (sep : Char) : List Char → List (List Char)
  | [] => [[]]
  | c :: cs =>
    let rest := splitOnChar sep cs
    if c = sep then [] :: rest
    else
      match rest with
      | r :: rs => (c :: r) :: rs
      | [] => [[c]]

/-- Python `s.split(sep)` for a one-character separator. -/
def pySplitChar (s : String) (sep : Char) : List String :=
  (splitOnChar sep s.data).map String.mk

/-- Joins pieces with a separator character (used to model the bounded
`maxsplit` behaviour of Python `str.split`). -/
def joinWithChar (sep : Char) : List (List Char) → List Char
  | [] => []
  | [x] => x
  | x :: xs => x ++ sep :: joinWithChar sep xs

/-- Python `s.replace(old, "")` for a one-character `old`. -/
def pyRemoveChar (s : String) (old : Char) : String :=
  String.mk (s.data.filter (fun c => c ≠ old))

/-- Python truthiness of an `Optional[str]` value: `None` and `""` are falsy. -/
def optStrTruthy : Option String → Bool
  | none => false
  | some s => s ≠ ""

/-- Python `x or default` for an `Optional[str]` value. -/
def pyOrDefault (o : Option String) (d : String) : String :=
  match o with
  | none => d
  | some s => if s = "" then d else s

/-- Decimal value of a digit list (used by `pyInt`). -/
def digitsToNat (l : List Char) : Nat :=
  l.foldl (fun n c => n * 10 + (c.toNat - 48)) 0

/-- Python `int(s)` on a string: surrounding whitespace allowed, optional
sign, at least one digit; `none` models the `ValueError`. -/
def pyInt (s : String) : Option Int :=
  match (pyStrip s).data with
  | '-' :: cs =>
    if cs ≠ [] && cs.all Char.isDigit then some (-(digitsToNat cs : Int)) else none
  | '+' :: cs =>
    if cs ≠ [] && cs.all Char.isDigit then some (digitsToNat cs : Int) else none
  | cs =>
    if cs ≠ [] && cs.all Char.isDigit then some (digitsToNat cs : Int) else none

/-- Python `s.strip('/')`. -/
def pyStripSlashes (s : String) : String :=
  String.mk (((s.data.dropWhile (· = '/')).reverse.dropWhile (· = '/')).reverse)

/-- Python `s.split(":", 2)`: at most two splits, the remainder of the
string is kept intact in the third field. -/
def pySplitColonMax2 (s : String) : List String :=
  match splitOnChar ':' s.data with
  | [] => [s]
  | [a] => [String.mk a]
  | [a, b] => [String.mk a, String.mk b]
  | a :: b :: rest => [String.mk a, String.mk b, String.mk (joinWithChar ':' rest)]

/-- A pandas `DataFrame` is modelled as its list of rows (cells as text);
only emptiness/identity matters to the claims. -/
abbrev DataFrame := List (List String)

/-! ### `utils/tools.py` -/

/-- Outcome of `session.sql(query).collect()` for a DML statement, as seen
by the `try` block of `execute_snowflake_dml`. -/
inductive DmlOutcome where
  | ok
  | raises (msg : String)
  deriving DecidableEq, Repr

/-- `tools.execute_snowflake_dml`: returns `True` on success; the `except`
branch only prints, so the function falls off the end and returns `None`. -/
def execute_snowflake_dml (o : DmlOutcome) : PyVal :=
  match o with
  | .ok => .pybool true
  | .raises _ => .pynone

/-- Outcome of `session.sql(query).collect()` for a scalar query: the first
column of the collected rows, or an exception. -/
inductive QueryOutcome where
  | rows (firstCol : List Int)
  | raises (msg : String)
  deriving DecidableEq, Repr

/-- `tools.execute_snowflake_query`: `int(df[0][0])` on data; an empty
result list makes `df[0]` raise `IndexError`, and every exception path
returns the single sentinel `-1`. -/
def execute_snowflake_query (o : QueryOutcome) : Int :=
  match o with
  | .rows (v :: _) => v
  | .rows [] => -1
  | .raises _ => -1

/-- Outcome of the lookup inside `tools.get_procedure_ddl`. -/
inductive ProcDdlOutcome where
  | found (ddl : String)
  | noRows
  | raises (msg : String)
  deriving DecidableEq, Repr

/-- `tools.get_procedure_ddl`: in-band error texts on failure. -/
def get_procedure_ddl (o : ProcDdlOutcome) : String :=
  match o with
  | .found d => d
  | .noRows => "Procedure not found in the specified schema."
  | .raises e => "Error fetching DDL: " ++ e

/-- Outcome of `session.sql(query).collect()` for a DataFrame query. -/
inductive DfOutcome where
  | rows (r : DataFrame)
  | raises (msg : String)
  deriving DecidableEq, Repr

/-- `tools.execute_snowflake_query_to_dataframe`: rows on success, `None`
on failure. -/
def execute_snowflake_query_to_dataframe (o : DfOutcome) : Option DataFrame :=
  match o with
  | .rows r => some r
  | .raises _ => none

/-! ### External effects

Calls out of the pipeline (warehouse, blob store, generation oracle) are
recorded as explicit effects so that "stage X performed no call" is
statable. -/

inductive Effect where
  | llmCall
  | tableDdlFetch (name : String)
  | procDdlFetch (proc schema : String)
  | sfDml (q : String)
  | sfQuery (q : String)
  | sfQueryDf (q : String)
  | azureUpload (folder file : String)
  | sleep (secs : Nat)
  deriving DecidableEq, Repr

/-! ### `utils/nodes.py` — object resolver (`extract_and_fetch_ddls`) -/

/-- One entry of the `fetched_ddls` list built by `extract_and_fetch_ddls`. -/
structure ResolvedObject where
  objname : String
  objtype : String
  objrole : String
  objddl : String
  deriving DecidableEq, Repr

/-- Warehouse definition-lookup collaborators, as seen by
`extract_and_fetch_ddls`: results of `get_table_ddl` (by qualified name)
and of `get_procedure_ddl` (by procedure and schema name). -/
structure DdlEnv where
  table_ddl : String → String
  proc_ddl : String → String → String

/-- Fate of one oracle response line inside the `for line in
extracted_lines` loop of `extract_and_fetch_ddls`. -/
inductive LineOutcome where
  | malformed
  | skippedName
  | unknownType
  | fetchFailed (ddl : String)
  | resolved (obj : ResolvedObject)
  deriving DecidableEq, Repr

/-- The `if ddl and "Error" not in ddl and "not found" not in ddl` guard of
`extract_and_fetch_ddls`: appends the entry to `fetched_ddls`, otherwise
logs the failure and drops it. -/
def finishEntry (object_type full_object_name role ddl : String)
    (effs : List Effect) : LineOutcome × List Effect :=
  if ddl ≠ "" && !(pyContains ddl "Error") && !(pyContains ddl "not found") then
    (.resolved ⟨full_object_name, object_type, role, ddl⟩, effs)
  else
    (.fetchFailed ddl, effs)

/-- Local (last dot-separated) segment of a qualified name. -/
def localSegment (name : String) : String :=
  (pySplitChar name '.').getLastD ""

/-- The stream/temp naming-convention rejection test of
`extract_and_fetch_ddls` (line 122):
`full_object_name.split('.')[-1].lower().startswith(('tmp_', 'str_'))`. -/
def isStreamOrTempName (name : String) : Bool :=
  pyStartsWith (pyLower (localSegment name)) "tmp_"
    || pyStartsWith (pyLower (localSegment name)) "str_"

/-- Body of the per-line loop of `extract_and_fetch_ddls` after the
three-way split has produced parts `p0`, `p1`, `p2`. -/
def processParts (env : DdlEnv) (p0 p1 p2 : String) : LineOutcome × List Effect :=
  let object_type := pyUpper (pyStrip p0)
  let full_object_name := pyStrip p1
  let role := pyLower (pyStrip p2)
  if isStreamOrTempName full_object_name then
    (.skippedName, [])
  else if object_type = "TABLE" || object_type = "VIEW" then
    let ddl := env.table_ddl full_object_name
    let role := if object_type = "VIEW" && !(role = "n/a" || role = "unknown")
                then "n/a" else role
    finishEntry object_type full_object_name role ddl
      [.tableDdlFetch full_object_name]
  else if object_type = "PROCEDURE" then
    let parts_proc := pySplitChar full_object_name '.'
    let fetched :=
      if parts_proc.length ≥ 2 then
        let schema_name := parts_proc.getD (parts_proc.length - 2) ""
        let proc_name := parts_proc.getLastD ""
        (env.proc_ddl proc_name schema_name,
          [Effect.procDdlFetch proc_name schema_name])
      else
        ("Error: Could not parse schema/name from " ++ full_object_name, [])
    let role := if !(role = "n/a" || role = "unknown") then "n/a" else role
    finishEntry object_type full_object_name role fetched.1 fetched.2
  else
    (.unknownType, [])

/-- One iteration of the line loop: `parts = line.split(":", 2)`, skip when
`len(parts) != 3`, otherwise process the three fields. -/
def processLine (env : DdlEnv) (line : String) : LineOutcome × List Effect :=
  match pySplitColonMax2 line with
  | [p0, p1, p2] => processParts env p0 p1 p2
  | _ => (.malformed, [])

/-- `response.content.strip().split('\n')` followed by
`[line.strip() for line in extracted_lines if line.strip()]`. -/
def extractLines (content : String) : List String :=
  ((pySplitChar (pyStrip content) '\n').map pyStrip).filter (fun l => l ≠ "")

/-- The `fetched_ddls` accumulation of `extract_and_fetch_ddls` over a list
of already-extracted lines: only `resolved` outcomes contribute an entry;
every other outcome is logged and the loop continues. -/
def resolvedObjects (env : DdlEnv) (lines : List String) : List ResolvedObject :=
  lines.filterMap fun line =>
    match (processLine env line).1 with
    | .resolved obj => some obj
    | _ => none

/-- `extract_and_fetch_ddls` applied to the oracle's raw response text:
the `ddl_data` it stores into the new state. -/
def extract_and_fetch_ddls (env : DdlEnv) (content : String) : List ResolvedObject :=
  resolvedObjects env (extractLines content)

/-! ### `utils/nodes.py` — execution engine (`execute_and_verify_tests`) -/

/-- One unit-test dictionary as consumed by `execute_and_verify_tests`;
`none` models an absent key (`dict.get` returning `None`). -/
structure TestCase where
  test_case : Option String := none
  brief_description : Option String := none
  insert_query : Option String := none
  source_table : Option String := none
  expected_behaviour : Option String := none
  validation_query : Option String := none
  expected_count : Option String := none
  target_table : Option String := none
  deriving DecidableEq, Repr

/-- The warehouse collaborator as seen by the execution engine: the
outcome of each submitted statement or query, keyed by its SQL text. -/
structure SfEnv where
  dml : String → DmlOutcome
  query : String → QueryOutcome
  queryDf : String → DfOutcome

/-- Truthiness-and-placeholder test used on each required field:
`f and f != "N/A"`. -/
def fieldOk : Option String → Bool
  | none => false
  | some s => s ≠ "" && s ≠ "N/A"

/-- The `all(f and f != "N/A" for f in required_fields)` guard over
`[insert_query, source_table, validation_query, expected_count,
target_table]`. -/
def requiredOk (tc : TestCase) : Bool :=
  fieldOk tc.insert_query && fieldOk tc.source_table
    && fieldOk tc.validation_query && fieldOk tc.expected_count
    && fieldOk tc.target_table

/-- The truncation statement issued for one table. -/
def truncQuery (t : String) : String :=
  "TRUNCATE TABLE IF EXISTS " ++ t ++ ";"

/-- The `source_tables_to_truncate ∪ target_tables_to_truncate` set of
`execute_and_verify_tests`, as a duplicate-free list (Python sets carry no
duplicates; iteration order is modelled as first-occurrence order). -/
def all_tables_to_truncate (uts : List TestCase) : List String :=
  (((uts.filterMap TestCase.source_table).filter (fun s => s ≠ "" && s ≠ "N/A"))
    ++ ((uts.filterMap TestCase.target_table).filter (fun s => s ≠ "" && s ≠ "N/A"))).dedup

/-- Whether the truncation DML for table `t` is accepted by the warehouse
(`if success:` on the `execute_snowflake_dml` result). -/
def truncSucceeds (env : SfEnv) (t : String) : Bool :=
  (execute_snowflake_dml (env.dml (truncQuery t))).truthy

/-- The truncation loop of `execute_and_verify_tests` (lines 367-382):
returns the list of truncation statements issued and the final
truncated-tables set.  A table already in the set is skipped; a table is
added to the set only when its truncation statement succeeds. -/
def truncateTables (env : SfEnv) : List String → List String → List String × List String
  | [], truncated => ([], truncated)
  | t :: ts, truncated =>
    if t ∈ truncated then
      truncateTables env ts truncated
    else
      let success := truncSucceeds env t
      let truncated' := if success then truncated ++ [t] else truncated
      let rest := truncateTables env ts truncated'
      (truncQuery t :: rest.1, rest.2)

/-- The Setup phase of `execute_and_verify_tests`: identify the union of
source and target tables across the fixture set and run the truncation
loop against the carried-forward truncated-tables set. -/
def run_setup (env : SfEnv) (uts : List TestCase) (truncated : List String) :
    List String × List String :=
  truncateTables env (all_tables_to_truncate uts) truncated

/-- A value stored in a result dictionary slot that Python fills with
either a string or an `int`. -/
inductive PyScalar where
  | s (v : String)
  | i (v : Int)
  deriving DecidableEq, Repr

/-- One `current_test_result` dictionary of `execute_and_verify_tests`
(the two DataFrame snapshots are modelled by their row lists). -/
structure TestResult where
  test_case : String
  insert_query : String
  validation_query : String
  expected_count : PyScalar
  actual_count : PyScalar
  result : String
  details : String
  source_data_before_sp : DataFrame
  target_data_after_sp : DataFrame
  deriving DecidableEq, Repr

/-- Per-fixture execution of `execute_and_verify_tests` (lines 386-514):
required-fields validation, insert, source snapshot, procedure call,
target snapshot, validation query, and exact-count comparison, together
with the warehouse calls issued.  The diagnostic `messages` log and the
truncation warning (which only log) are not modelled. -/
def runTestCase (env : SfEnv) (procedure_schema procedure_name : String)
    (i : Nat) (tc : TestCase) : TestResult × List Effect :=
  let test_case_name := tc.test_case.getD ("Unnamed Test " ++ toString (i + 1))
  let base : TestResult :=
    { test_case := test_case_name
      insert_query := pyOrDefault tc.insert_query "N/A"
      validation_query := pyOrDefault tc.validation_query "N/A"
      expected_count := .s (pyOrDefault tc.expected_count "N/A")
      actual_count := .s "N/A"
      result := "Skipped"
      details := "Test not fully executed."
      source_data_before_sp := []
      target_data_after_sp := [] }
  if !(requiredOk tc) then
    ({ base with details := "Missing required fields for execution." }, [])
  else
    match pyInt (tc.expected_count.getD "") with
    | none =>
      ({ base with
          result := "Error"
          details := "Invalid format for expected_count."
          expected_count := .s (pyOrDefault tc.expected_count "N/A") }, [])
    | some expected_count =>
      let base := { base with expected_count := .i expected_count }
      let insert_query := tc.insert_query.getD ""
      let effs0 := [Effect.sfDml insert_query]
      if !(execute_snowflake_dml (env.dml insert_query)).truthy then
        ({ base with
            result := "Error"
            details := "Failed to execute insert query: " ++ insert_query }, effs0)
      else
        let srcStep :=
          if tc.source_table ≠ some "N/A" then
            let select_source_query :=
              "SELECT * FROM " ++ tc.source_table.getD "" ++ ";"
            match execute_snowflake_query_to_dataframe
                (env.queryDf select_source_query) with
            | some df =>
              ({ base with source_data_before_sp := df },
                effs0 ++ [.sfQueryDf select_source_query])
            | none =>
              ({ base with details := base.details ++
                  " Warning: Failed to capture source data after insert." },
                effs0 ++ [.sfQueryDf select_source_query])
          else (base, effs0)
        let base := srcStep.1
        let effs1 := srcStep.2
        let procedure_call :=
          "CALL " ++ procedure_schema ++ "." ++ procedure_name ++ "();"
        let effs2 := effs1 ++ [Effect.sfDml procedure_call]
        if !(execute_snowflake_dml (env.dml procedure_call)).truthy then
          ({ base with
              result := "Error"
              details := "Failed to execute procedure call: " ++ procedure_call },
            effs2)
        else
          let tgtStep :=
            if tc.target_table ≠ some "N/A" then
              let select_target_query :=
                "SELECT * FROM " ++ tc.target_table.getD "" ++ ";"
              match execute_snowflake_query_to_dataframe
                  (env.queryDf select_target_query) with
              | some df =>
                ({ base with target_data_after_sp := df },
                  effs2 ++ [.sfQueryDf select_target_query])
              | none =>
                ({ base with details := base.details ++
                    " Warning: Failed to capture target data after SP call." },
                  effs2 ++ [.sfQueryDf select_target_query])
            else (base, effs2)
          let base := tgtStep.1
          let effs3 := tgtStep.2
          let validation_query := tc.validation_query.getD ""
          let actual_count := execute_snowflake_query (env.query validation_query)
          let base := { base with actual_count := .i actual_count }
          let effs4 := effs3 ++ [Effect.sfQuery validation_query]
          if actual_count = -1 then
            ({ base with
                result := "Error"
                details := "Failed to execute validation query: " ++ validation_query },
              effs4)
          else
            if actual_count = expected_count then
              ({ base with result := "Pass", details := "Test passed." }, effs4)
            else
              ({ base with
                  result := "Fail"
                  details := "Expected count " ++ toString expected_count
                    ++ ", but got " ++ toString actual_count ++ "." }, effs4)

/-- `execute_and_verify_tests` end to end: early return on an empty
fixture list, the Setup truncation phase, then per-fixture execution.
Returns the result list and the final truncated-tables set. -/
def execute_and_verify_tests (env : SfEnv) (procedure_schema procedure_name : String)
    (uts : List TestCase) (truncated : List String) :
    List TestResult × List String :=
  if uts = [] then ([], truncated)
  else
    let setup := run_setup env uts truncated
    ((uts.enum.map fun p => (runTestCase env procedure_schema procedure_name p.1 p.2).1),
      setup.2)

/-! ### `utils/pipe_state.py` and `utils/pipe_nodes.py` -/

/-- `PipeGraphState` (the diagnostic message log is kept as plain text). -/
structure PipeState where
  pipe_name : String := ""
  pipe_schema : String := ""
  pipe_ddl : Option String := none
  target_table_name : Option String := none
  target_table_ddl : Option String := none
  azure_folder_path : Option String := none
  generated_csv_content : Option String := none
  generated_csv_filename : Option String := none
  upload_status : Option Bool := none
  verification_query : Option String := none
  verification_result : Option Int := none
  target_table_data_after_test : Option DataFrame := none
  final_message : Option String := none
  error_message : Option String := none
  messages : List String := []
  deriving DecidableEq, Repr

/-- Collaborator results consumed by `get_pipe_details`: the `get_pipe_ddl`
text, the two `re.search` results as their captured groups (`none` when
the pattern finds no match), and the `get_table_ddl` lookup.  The regex
engine itself is treated as a collaborator; `copyIntoMatch` is group 1 of
the `COPY INTO` pattern and `fromStageMatch` is groups 1 and 2 (stage
name, path) of the `FROM @stage/path` pattern. -/
structure PipeDetailEnv where
  pipeDdlResult : String
  copyIntoMatch : Option String
  fromStageMatch : Option (String × String)
  tableDdlResult : String → String

/-- `pipe_nodes.get_pipe_details`: fetches the pipe DDL (string-matched
for in-band failure), extracts the target table and stage path (either
extraction failing sets the hard error and returns early), then fetches
the target table DDL (failure appended to the hard-error field but the
state still returned for the next stage). -/
def get_pipe_details (env : PipeDetailEnv) (state : PipeState) : PipeState :=
  let messages := state.messages
  let pipe_ddl := env.pipeDdlResult
  if pyContains pipe_ddl "Error" || pyContains pipe_ddl "not found" then
    let error_msg := "Failed to get DDL for pipe '" ++ state.pipe_schema ++ "."
      ++ state.pipe_name ++ "': " ++ pipe_ddl
    { state with error_message := some error_msg
                 messages := messages ++ [error_msg] }
  else
    let messages := messages ++ ["Successfully fetched Pipe DDL for "
      ++ state.pipe_schema ++ "." ++ state.pipe_name ++ "."]
    let s1 := { state with pipe_ddl := some pipe_ddl }
    match env.copyIntoMatch with
    | none =>
      let error_msg := "Could not extract target table name from Pipe DDL using regex."
      { s1 with error_message := some error_msg
                messages := messages ++ [error_msg] }
    | some rawTarget =>
      let target_table_name := pyRemoveChar (pyStrip rawTarget) '\"'
      let s2 := { s1 with target_table_name := some target_table_name }
      match env.fromStageMatch with
      | none =>
        let error_msg :=
          "Could not extract Azure folder path (FROM @.../path/) from Pipe DDL using regex."
        { s2 with error_message := some error_msg
                  messages := messages ++ [error_msg] }
      | some stageGroups =>
        let path_prefix := if stageGroups.2 ≠ "" then pyStripSlashes stageGroups.2 else ""
        let s3 := { s2 with azure_folder_path := some path_prefix }
        let table_ddl := env.tableDdlResult target_table_name
        if pyContains table_ddl "Error" || pyContains table_ddl "not found" then
          let error_msg := "Failed to get DDL for target table '"
            ++ target_table_name ++ "': " ++ table_ddl
          { s3 with
              error_message := some (pyOrDefault s3.error_message "" ++ "; " ++ error_msg)
              messages := messages ++ [error_msg]
              target_table_ddl := some table_ddl }
        else
          { s3 with
              target_table_ddl := some table_ddl
              messages := messages ++ ["Successfully fetched Table DDL for "
                ++ target_table_name ++ "."] }

/-- Outcome of the oracle call plus parse plus CSV shape validation inside
`generate_csv_data`'s `try` block. -/
inductive LlmCsvOutcome where
  | parsed (csv_content comment : String)
  | parseFailure (msg : String)
  | raised (msg : String)
  deriving DecidableEq, Repr

/-- Collaborators of `generate_csv_data`: the generation-oracle outcome
and the wall clock used for the unique filename. -/
structure CsvGenEnv where
  llm : LlmCsvOutcome
  now : Nat

/-- `pipe_nodes.generate_csv_data`: skips when a previous stage set the
hard-error field; validates presence of both DDLs; asks the oracle for a
CSV payload, validating shape (non-empty, contains a newline); failures
set the hard-error field, never raise. -/
def generate_csv_data (env : CsvGenEnv) (state : PipeState) : PipeState × List Effect :=
  if optStrTruthy state.error_message then
    (state, [])
  else if !(optStrTruthy state.target_table_ddl && optStrTruthy state.pipe_ddl) then
    let error_msg := "Missing Pipe DDL or Table DDL for CSV generation."
    ({ state with error_message := some error_msg
                  messages := state.messages ++ [error_msg] }, [])
  else
    match env.llm with
    | .raised e =>
      let error_msg := "An unexpected error occurred during CSV generation: " ++ e
      ({ state with error_message := some error_msg
                    messages := state.messages ++ [error_msg] }, [.llmCall])
    | .parseFailure e =>
      let error_msg := "Failed to parse LLM output or validate generated CSV: " ++ e
      ({ state with error_message := some error_msg
                    messages := state.messages ++ [error_msg] }, [.llmCall])
    | .parsed csvRaw comment =>
      let csv_content := pyStrip csvRaw
      if !(pyContains csv_content "\n") || csv_content = "" then
        let error_msg := "Failed to parse LLM output or validate generated CSV: "
          ++ "Generated CSV content seems empty or lacks structure."
        ({ state with error_message := some error_msg
                      messages := state.messages ++ [error_msg] }, [.llmCall])
      else
        ({ state with
            generated_csv_content := some csv_content
            generated_csv_filename :=
              some (state.pipe_name ++ "_test_" ++ toString env.now ++ ".csv")
            messages := state.messages
              ++ ["Successfully generated CSV data. Comment: " ++ comment] },
          [.llmCall])

/-- Collaborators of `upload_and_verify_pipe`: the blob-upload result and
the warehouse outcomes keyed by query text. -/
structure PipeEnv where
  uploadResult : String → String → String → Bool
  query : String → QueryOutcome
  queryDf : String → DfOutcome

/-- `pipe_nodes.upload_and_verify_pipe`: skips all work when the
hard-error field is set; otherwise uploads the payload, waits, runs the
COUNT verification query (distinguishing the `-2` and `-1` sentinels from
a real count), and best-effort fetches a full target snapshot. -/
def upload_and_verify_pipe (env : PipeEnv) (state : PipeState) : PipeState × List Effect :=
  let s0 := { state with target_table_data_after_test := some [] }
  if optStrTruthy state.error_message then
    let skip_msg := "Test skipped due to errors: " ++ state.error_message.getD ""
    ({ s0 with final_message := some skip_msg }, [])
  else if !(optStrTruthy state.generated_csv_content
      && optStrTruthy state.generated_csv_filename
      && optStrTruthy state.azure_folder_path
      && optStrTruthy state.target_table_name) then
    let error_msg := "Missing required data for upload/verification "
      ++ "(CSV content, filename, Azure path, or target table)."
    ({ s0 with error_message := some error_msg
               final_message := some ("Test failed: " ++ error_msg)
               messages := s0.messages ++ [error_msg] }, [])
  else
    let csv_content := state.generated_csv_content.getD ""
    let filename := state.generated_csv_filename.getD ""
    let azure_folder_path := state.azure_folder_path.getD ""
    let target_table := state.target_table_name.getD ""
    let upload_success := env.uploadResult csv_content azure_folder_path filename
    let s1 := { s0 with upload_status := some upload_success }
    let effsUp := [Effect.azureUpload azure_folder_path filename]
    if !upload_success then
      let error_msg := "Failed to upload CSV file '" ++ filename ++ "' to Azure."
      ({ s1 with error_message := some error_msg
                 final_message := some ("Test failed: " ++ error_msg)
                 messages := s1.messages ++ [error_msg] }, effsUp)
    else
      let s1 := { s1 with messages := s1.messages
        ++ ["Successfully uploaded '" ++ filename ++ "' to Azure."] }
      let effsWait := effsUp ++ [Effect.sleep 35]
      let verification_query := "SELECT COUNT(*) FROM " ++ target_table
      let s2 := { s1 with verification_query := some verification_query }
      let actual_count := execute_snowflake_query (env.query verification_query)
      let effsQ := effsWait ++ [Effect.sfQuery verification_query]
      let s3 :=
        if actual_count = -2 then
          let error_msg := "Failed to execute verification query (COUNT): "
            ++ verification_query
          { s2 with error_message := some error_msg
                    final_message := some ("Test partially succeeded (upload OK), "
                      ++ "but verification (COUNT) failed: " ++ error_msg)
                    verification_result := none }
        else if actual_count = -1 then
          let error_msg := "Verification query (COUNT) ran but returned no data "
            ++ "(unexpected): " ++ verification_query
          { s2 with error_message := some error_msg
                    final_message := some ("Test status uncertain: Upload OK, but "
                      ++ "verification query (COUNT) returned no data. Row count: 0.")
                    verification_result := some 0 }
        else
          let num_generated_rows := (pySplitChar (pyStrip csv_content) '\n').length - 1
          let final_msg_count := "Found " ++ toString actual_count ++ " rows in '"
            ++ target_table ++ "' after waiting. (Generated "
            ++ toString num_generated_rows ++ " rows)."
          if actual_count > 0 then
            { s2 with verification_result := some actual_count
                      messages := s2.messages ++ ["Verification (COUNT) successful. "
                        ++ final_msg_count]
                      final_message := some ("Test successful: Upload OK. "
                        ++ final_msg_count) }
          else
            { s2 with verification_result := some actual_count
                      messages := s2.messages ++ ["Verification (COUNT) shows "
                        ++ "potential issue: " ++ final_msg_count]
                      final_message := some ("Test potentially failed: Upload OK, but "
                        ++ final_msg_count) }
      let select_all_query := "SELECT * FROM " ++ target_table
      let effsAll := effsQ ++ [Effect.sfQueryDf select_all_query]
      match execute_snowflake_query_to_dataframe (env.queryDf select_all_query) with
      | some df =>
        ({ s3 with target_table_data_after_test := some df
                   messages := s3.messages ++ ["Successfully fetched data from "
                     ++ target_table ++ " for reporting."] }, effsAll)
      | none =>
        ({ s3 with messages := s3.messages ++ ["Warning: Failed to fetch data from "
            ++ target_table ++ " for reporting."] }, effsAll)

/-! ### Concrete collaborators and inputs used by witnesses and
counterexamples -/

/-- Definition lookup that always succeeds with an unremarkable text. -/
def ddlEnvGood : DdlEnv :=
  { table_ddl := fun n => "CREATE OBJECT " ++ n
    proc_ddl := fun p s => "CREATE PROC " ++ s ++ "." ++ p }

/-- Definition lookup that returns the empty text. -/
def ddlEnvEmpty : DdlEnv :=
  { table_ddl := fun _ => "", proc_ddl := fun _ _ => "" }

/-- Definition lookup whose (successful) table definition happens to
contain the word `Error`. -/
def ddlEnvErrWord : DdlEnv :=
  { table_ddl := fun n =>
      "CREATE TABLE " ++ n ++ " (MSG VARCHAR) COMMENT = 'Stores Error text'"
    proc_ddl := fun _ _ => "" }

/-- Warehouse on which every statement and query succeeds (count 1). -/
def sfAllOk : SfEnv :=
  { dml := fun _ => .ok
    query := fun _ => .rows [1]
    queryDf := fun _ => .rows [] }

/-- Warehouse on which every DML statement raises. -/
def sfDmlFails : SfEnv :=
  { dml := fun _ => .raises "insufficient privileges"
    query := fun _ => .rows [0]
    queryDf := fun _ => .rows [] }

/-- Fixture naming one source and one target table. -/
def tcPair : TestCase :=
  { source_table := some "DB.S.SRC", target_table := some "DB.S.TGT" }

/-- Fully populated executable fixture. -/
def tcGood : TestCase :=
  { test_case := some "Insert New Plant Record"
    insert_query := some "INSERT INTO DB.S.SRC VALUES (1)"
    source_table := some "DB.S.SRC"
    validation_query := some "SELECT COUNT(*) FROM DB.S.TGT"
    expected_count := some "1"
    target_table := some "DB.S.TGT" }

/-- Fixture whose validation query is the not-applicable marker. -/
def tcNoValidation : TestCase :=
  { tcGood with validation_query := some "N/A" }

/-- Pipe-resolver collaborators for a pipe definition with a `COPY INTO`
clause but no `FROM @stage` clause. -/
def pdEnvNoFrom : PipeDetailEnv :=
  { pipeDdlResult := "CREATE PIPE S.PIPE1 AS COPY INTO DB.S.TGT FROM TABLE1"
    copyIntoMatch := some "DB.S.TGT"
    fromStageMatch := none
    tableDdlResult := fun _ => "CREATE TABLE DB.S.TGT (A INT)" }

/-- Pipe-resolver collaborators where the pipe-DDL lookup failed in-band. -/
def pdEnvBadPipe : PipeDetailEnv :=
  { pipeDdlResult := "Error fetching pipe DDL: timeout"
    copyIntoMatch := none
    fromStageMatch := none
    tableDdlResult := fun _ => "" }

/-- Pipe-resolver collaborators where both extractions succeed but the
(successfully fetched) target-table definition contains the word `Error`. -/
def pdEnvErrWordTable : PipeDetailEnv :=
  { pipeDdlResult := "CREATE PIPE S.PIPE1 AS COPY INTO DB.S.TGT FROM @stage/feed/"
    copyIntoMatch := some "DB.S.TGT"
    fromStageMatch := some ("stage", "feed")
    tableDdlResult := fun _ =>
      "CREATE TABLE DB.S.TGT (MSG VARCHAR) COMMENT = 'Stores Error text'" }

/-- Feed-generator collaborators that return a well-formed payload. -/
def csvEnvOk : CsvGenEnv :=
  { llm := .parsed "C1,C2\n1,2" "ok", now := 1 }

/-- Verifier collaborators whose COUNT query raises an execution error. -/
def pipeEnvCountRaises : PipeEnv :=
  { uploadResult := fun _ _ _ => true
    query := fun _ => .raises "network error"
    queryDf := fun _ => .rows [] }

/-- Verifier collaborators on which everything succeeds (count 3). -/
def pipeEnvAllOk : PipeEnv :=
  { uploadResult := fun _ _ _ => true
    query := fun _ => .rows [3]
    queryDf := fun _ => .rows [] }

/-- Pipe state ready for upload and verification. -/
def stWithCsv : PipeState :=
  { pipe_name := "PIPE1"
    pipe_schema := "S"
    generated_csv_content := some "H1,H2\n1,2"
    generated_csv_filename := some "PIPE1_test_1.csv"
    azure_folder_path := some "feed"
    target_table_name := some "DB.S.TGT" }

/-- Freshly created pipe run state. -/
def stInit : PipeState :=
  { pipe_name := "PIPE1", pipe_schema := "S" }

/-! ### Claim theorems -/

/-- C9: the claim says `execute_snowflake_dml` returns a boolean, `True`
on success and `False` on failure.  The code's `except` branch only
prints, so on failure the function falls off the end and returns `None`,
a non-boolean value; the docstring ("Returns True on success, False on
failure.") is contradicted by the code.  This theorem evaluates the code
at a failing statement. -/
theorem c9_dml_failure_returns_none :
    execute_snowflake_dml DmlOutcome.ok = PyVal.pybool true ∧
    execute_snowflake_dml (DmlOutcome.raises "insufficient privileges") = PyVal.pynone ∧
    PyVal.pynone ≠ PyVal.pybool false ∧ PyVal.pynone ≠ PyVal.pybool true := by
  refine ⟨rfl, rfl, ?_, ?_⟩ <;> decide

/-- C8: the claim says the count-query capability returns −1 or −2 as
failure sentinels and that the verifier treats −2 (tool execution error)
as a hard error.  In the code `execute_snowflake_query` returns −1 for
every failure (exception or empty result set) and never −2, so a COUNT
query whose execution raises lands in the verifier's "no data /
uncertain" branch (count treated as zero) instead of the hard-error
branch; the `-2` branch is unreachable from tool outputs, contradicting
its own comment. -/
theorem c8_count_sentinels_collapse_to_minus_one :
    execute_snowflake_query (QueryOutcome.raises "network error") = -1 ∧
    execute_snowflake_query (QueryOutcome.rows []) = -1 ∧
    ((-1 : Int) ≠ -2) ∧
    (upload_and_verify_pipe pipeEnvCountRaises stWithCsv).1.verification_result = some 0 ∧
    (upload_and_verify_pipe pipeEnvCountRaises stWithCsv).1.final_message =
      some ("Test status uncertain: Upload OK, but verification query (COUNT) "
        ++ "returned no data. Row count: 0.") := by
  refine ⟨rfl, rfl, by decide, rfl, rfl⟩

/-- C2: a fixture missing any of the five execution-relevant fields (or
holding `"N/A"` or the empty string in one of them) is recorded as
`Skipped` with the missing-required-fields detail, and no warehouse call
is made for it. -/
theorem c2_missing_fields_skipped (env : SfEnv) (ps pn : String) (i : Nat)
    (tc : TestCase) (h : requiredOk tc = false) :
    (runTestCase env ps pn i tc).1.result = "Skipped" ∧
    (runTestCase env ps pn i tc).1.details = "Missing required fields for execution." ∧
    (runTestCase env ps pn i tc).2 = [] := by
  simp [runTestCase, h]

/-- C2 witness: a fixture whose validation query is the `"N/A"` marker. -/
theorem c2_missing_fields_skipped_witness :
    requiredOk tcNoValidation = false ∧
    ((runTestCase sfAllOk "S" "P" 0 tcNoValidation).1.result = "Skipped" ∧
     (runTestCase sfAllOk "S" "P" 0 tcNoValidation).1.details =
       "Missing required fields for execution." ∧
     (runTestCase sfAllOk "S" "P" 0 tcNoValidation).2 = []) :=
  ⟨by decide, c2_missing_fields_skipped sfAllOk "S" "P" 0 tcNoValidation (by decide)⟩

/-- Inversion on a per-line outcome that yields a resolved entry: the
entry echoes the (trimmed) name and (upper-cased) kind of the line, the
name survived the stream/temp rejection, its definition text passed the
non-empty/no-marker guard, view and procedure kinds carry role `n/a` or
`unknown`, and table/view kinds carry the table-lookup definition text. -/
theorem processParts_resolved_inv (env : DdlEnv) (p0 p1 p2 : String)
    (obj : ResolvedObject) (effs : List Effect)
    (h : processParts env p0 p1 p2 = (.resolved obj, effs)) :
    obj.objname = (pyStrip p1) ∧ obj.objtype = pyUpper (pyStrip p0) ∧
    isStreamOrTempName ((pyStrip p1)) = false ∧
    (obj.objddl ≠ "" ∧ pyContains obj.objddl "Error" = false ∧
      pyContains obj.objddl "not found" = false) ∧
    ((obj.objtype = "VIEW" ∨ obj.objtype = "PROCEDURE") →
      obj.objrole = "n/a" ∨ obj.objrole = "unknown") ∧
    ((pyUpper (pyStrip p0) = "TABLE" ∨ pyUpper (pyStrip p0) = "VIEW") →
      obj.objddl = env.table_ddl ((pyStrip p1))) := by
  simp only [processParts, finishEntry] at h
  split_ifs at h with h1 h2 h3 h4 h5 h6 h7 h8 h9 h10 <;>
    (rw [Prod.mk.injEq] at h; obtain ⟨hL, -⟩ := h) <;>
    cases hL
  · simp only [Bool.and_eq_true, Bool.not_eq_true', decide_eq_true_eq] at h3
    exact ⟨rfl, rfl, by simpa using h1, ⟨h3.1.1, h3.1.2, h3.2⟩,
      fun _ => Or.inl rfl, fun _ => rfl⟩
  · simp only [Bool.and_eq_true, Bool.not_eq_true', decide_eq_true_eq] at h3
    simp at h4
    refine ⟨rfl, rfl, by simpa using h1, ⟨h3.1.1, h3.1.2, h3.2⟩, ?_, fun _ => rfl⟩
    intro hk
    by_cases hna : pyLower (pyStrip p2) = "n/a"
    · exact Or.inl hna
    · rcases hk with hk | hk
      · exact Or.inr (h4 hk hna)
      · rcases (by simpa using h2 : pyUpper (pyStrip p0) = "TABLE" ∨ pyUpper (pyStrip p0) = "VIEW")
          with ht | ht
        · exact absurd (ht.symm.trans hk) (by decide)
        · exact Or.inr (h4 ht hna)
  · simp only [Bool.and_eq_true, Bool.not_eq_true', decide_eq_true_eq] at h7
    refine ⟨rfl, rfl, by simpa using h1, ⟨h7.1.1, h7.1.2, h7.2⟩,
      fun _ => Or.inl rfl, fun hp => ?_⟩
    rcases hp with hp | hp
    · exact absurd (hp.symm.trans h5) (by decide)
    · exact absurd (hp.symm.trans h5) (by decide)
  · simp only [Bool.and_eq_true, Bool.not_eq_true', decide_eq_true_eq] at h7
    simp at h8
    refine ⟨rfl, rfl, by simpa using h1, ⟨h7.1.1, h7.1.2, h7.2⟩, ?_, fun hp => ?_⟩
    · intro _
      by_cases hna : pyLower (pyStrip p2) = "n/a"
      · exact Or.inl hna
      · exact Or.inr (h8 hna)
    · rcases hp with hp | hp
      · exact absurd (hp.symm.trans h5) (by decide)
      · exact absurd (hp.symm.trans h5) (by decide)
  · simp only [Bool.and_eq_true, Bool.not_eq_true', decide_eq_true_eq] at h9
    refine ⟨rfl, rfl, by simpa using h1, ⟨h9.1.1, h9.1.2, h9.2⟩,
      fun _ => Or.inl rfl, fun hp => ?_⟩
    rcases hp with hp | hp
    · exact absurd (hp.symm.trans h5) (by decide)
    · exact absurd (hp.symm.trans h5) (by decide)
  · simp only [Bool.and_eq_true, Bool.not_eq_true', decide_eq_true_eq] at h9
    simp at h10
    refine ⟨rfl, rfl, by simpa using h1, ⟨h9.1.1, h9.1.2, h9.2⟩, ?_, fun hp => ?_⟩
    · intro _
      by_cases hna : pyLower (pyStrip p2) = "n/a"
      · exact Or.inl hna
      · exact Or.inr (h10 hna)
    · rcases hp with hp | hp
      · exact absurd (hp.symm.trans h5) (by decide)
      · exact absurd (hp.symm.trans h5) (by decide)

/-- A member of the resolved-object list comes from some line whose
processing yielded it. -/
theorem mem_resolvedObjects (env : DdlEnv) (lines : List String)
    (obj : ResolvedObject) (h : obj ∈ resolvedObjects env lines) :
    ∃ line ∈ lines, (processLine env line).1 = .resolved obj := by
  simp only [resolvedObjects, List.mem_filterMap] at h
  obtain ⟨line, hline, heq⟩ := h
  refine ⟨line, hline, ?_⟩
  rcases hout : (processLine env line).1 with _ | _ | _ | d | o
  all_goals rw [hout] at heq
  all_goals simp_all

/-- A line whose processing yielded a resolved entry split into exactly
three parts and those parts produced the entry. -/
theorem processLine_fst_resolved (env : DdlEnv) (line : String)
    (obj : ResolvedObject) (h : (processLine env line).1 = .resolved obj) :
    ∃ p0 p1 p2, pySplitColonMax2 line = [p0, p1, p2] ∧
      (processParts env p0 p1 p2).1 = .resolved obj := by
  unfold processLine at h
  rcases hsp : pySplitColonMax2 line with _ | ⟨a, _ | ⟨b, _ | ⟨c, r⟩⟩⟩ <;>
    rw [hsp] at h
  · simp at h
  · simp at h
  · simp at h
  · rcases r with _ | ⟨d, r'⟩
    · exact ⟨a, b, c, rfl, h⟩
    · simp at h

/-- C5: the claim says the role of every view or procedure entry is forced
to the not-applicable value regardless of the role the oracle stated.  In
the code the forcing is guarded by `role not in ['n/a', 'unknown']`, so an
oracle-stated role of `unknown` is kept verbatim on a view entry. -/
theorem c5_counterexample :
    (processLine ddlEnvGood "VIEW:DB.SCH.CUSTOMER_VIEW:unknown").1 =
      .resolved ⟨"DB.SCH.CUSTOMER_VIEW", "VIEW", "unknown",
        "CREATE OBJECT DB.SCH.CUSTOMER_VIEW"⟩ ∧
    ("unknown" : String) ≠ "n/a" := ⟨rfl, by decide⟩

/-- C5 (amended): every view or procedure entry in the resolver's output
carries role `n/a` or the oracle-stated `unknown`; in particular it never
carries a source, target, or master role. -/
theorem c5_view_procedure_role_neutral (env : DdlEnv) (lines : List String)
    (obj : ResolvedObject) (hmem : obj ∈ resolvedObjects env lines)
    (hkind : obj.objtype = "VIEW" ∨ obj.objtype = "PROCEDURE") :
    obj.objrole = "n/a" ∨ obj.objrole = "unknown" := by
  obtain ⟨line, -, hres⟩ := mem_resolvedObjects env lines obj hmem
  obtain ⟨p0, p1, p2, -, hparts⟩ := processLine_fst_resolved env line obj hres
  have hpair : processParts env p0 p1 p2 =
      (.resolved obj, (processParts env p0 p1 p2).2) :=
    Prod.ext_iff.mpr ⟨hparts, rfl⟩
  exact (processParts_resolved_inv env p0 p1 p2 obj _ hpair).2.2.2.2.1 hkind

/-- C5 witness: a view entry whose oracle-stated role `source` comes out
as `n/a`. -/
theorem c5_view_procedure_role_neutral_witness :
    (⟨"DB.S.V1", "VIEW", "n/a", "CREATE OBJECT DB.S.V1"⟩ : ResolvedObject) ∈
      resolvedObjects ddlEnvGood ["VIEW:DB.S.V1:source"] ∧
    ((⟨"DB.S.V1", "VIEW", "n/a", "CREATE OBJECT DB.S.V1"⟩ : ResolvedObject).objrole = "n/a" ∨
     (⟨"DB.S.V1", "VIEW", "n/a", "CREATE OBJECT DB.S.V1"⟩ : ResolvedObject).objrole = "unknown") :=
  ⟨by decide, c5_view_procedure_role_neutral ddlEnvGood ["VIEW:DB.S.V1:source"] _
    (by decide) (Or.inl rfl)⟩

/-- C6: an entry whose local name starts (case-insensitively) with the
stream marker `str_` or the temp marker `tmp_` is skipped with no
definition fetch, and no such name ever appears in the resolver output. -/
theorem c6_stream_temp_names_excluded :
    (∀ (env : DdlEnv) (p0 p1 p2 : String), isStreamOrTempName ((pyStrip p1)) = true →
        processParts env p0 p1 p2 = (.skippedName, [])) ∧
    (∀ (env : DdlEnv) (lines : List String) (obj : ResolvedObject),
        obj ∈ resolvedObjects env lines → isStreamOrTempName obj.objname = false) := by
  constructor
  · intro env p0 p1 p2 h
    simp [processParts, h]
  · intro env lines obj hmem
    obtain ⟨line, -, hres⟩ := mem_resolvedObjects env lines obj hmem
    obtain ⟨p0, p1, p2, -, hparts⟩ := processLine_fst_resolved env line obj hres
    have hpair : processParts env p0 p1 p2 =
        (.resolved obj, (processParts env p0 p1 p2).2) :=
      Prod.ext_iff.mpr ⟨hparts, rfl⟩
    have hinv := processParts_resolved_inv env p0 p1 p2 obj _ hpair
    rw [hinv.1]
    exact hinv.2.2.1

/-- C6 witness: a temp-marker table name is skipped without a fetch, and a
resolved view entry's name carries no marker. -/
theorem c6_stream_temp_names_excluded_witness :
    processParts ddlEnvGood "TABLE" "DB.S.tmp_str_orders_01" "source" = (.skippedName, []) ∧
    isStreamOrTempName
      (⟨"DB.S.V1", "VIEW", "n/a", "CREATE OBJECT DB.S.V1"⟩ : ResolvedObject).objname = false :=
  ⟨c6_stream_temp_names_excluded.1 ddlEnvGood "TABLE" "DB.S.tmp_str_orders_01" "source"
      (by decide),
   c6_stream_temp_names_excluded.2 ddlEnvGood ["VIEW:DB.S.V1:source"] _ (by decide)⟩

/-- C7: the claim says every line not consisting of exactly three
colon-separated fields is logged and skipped and never yields a resolved
entry.  The code splits with `line.split(":", 2)`, which folds any colons
beyond the second into the third field, so a line with four
colon-separated fields is processed (the extra field ends up inside the
role) and yields a resolved entry. -/
theorem c7_counterexample :
    (pySplitChar "TABLE:DB.S.T:source:extra" ':').length = 4 ∧
    (processLine ddlEnvGood "TABLE:DB.S.T:source:extra").1 =
      .resolved ⟨"DB.S.T", "TABLE", "source:extra", "CREATE OBJECT DB.S.T"⟩ := by
  exact ⟨rfl, rfl⟩

/-- C7 (amended): a line with fewer than three colon-separated fields is
skipped without raising, yields no resolved entry, and does not abort the
processing of the remaining lines; a line with more than three fields is
not skipped — the extra fields are folded into the role field. -/
theorem c7_malformed_lines_skipped (env : DdlEnv) (line : String)
    (rest : List String) (h : (pySplitChar line ':').length < 3) :
    processLine env line = (LineOutcome.malformed, []) ∧
    resolvedObjects env (line :: rest) = resolvedObjects env rest := by
  have hml : processLine env line = (LineOutcome.malformed, []) := by
    have hlen : (splitOnChar ':' line.data).length < 3 := by
      simpa [pySplitChar] using h
    unfold processLine pySplitColonMax2
    rcases hsp : splitOnChar ':' line.data with _ | ⟨a, _ | ⟨b, _ | ⟨c, r⟩⟩⟩ <;>
      simp only [hsp] at hlen ⊢
    simp at hlen
    omega
  refine ⟨hml, ?_⟩
  simp [resolvedObjects, List.filterMap_cons, hml]

/-- C7 witness: a colon-free line is skipped while the following
well-formed line still resolves. -/
theorem c7_malformed_lines_skipped_witness :
    (pySplitChar "NOT A TRIPLE" ':').length < 3 ∧
    (processLine ddlEnvGood "NOT A TRIPLE" = (LineOutcome.malformed, []) ∧
     resolvedObjects ddlEnvGood ["NOT A TRIPLE", "TABLE:DB.S.T:target"] =
       resolvedObjects ddlEnvGood ["TABLE:DB.S.T:target"]) :=
  ⟨by decide,
   c7_malformed_lines_skipped ddlEnvGood "NOT A TRIPLE" ["TABLE:DB.S.T:target"] (by decide)⟩

/-- C10: the claim says a fetched definition text is treated as a failure
exactly when it contains the substring `Error` or `not found`.  The
Object Resolver's guard `if ddl and ...` additionally treats the empty
text as a failure, so the biconditional fails at the empty fetched text,
which contains neither substring yet is dropped. -/
theorem c10_counterexample :
    pyContains "" "Error" = false ∧ pyContains "" "not found" = false ∧
    (processLine ddlEnvEmpty "TABLE:DB.S.T:source").1 = LineOutcome.fetchFailed "" := by
  exact ⟨rfl, rfl, rfl⟩

/-- C10 (amended): fetch failure is detected by substring matching, plus
an emptiness test in the Object Resolver: there a fetched table
definition yields a resolved entry exactly when it is non-empty and
contains neither `Error` nor `not found`, while the Pipe Detail Resolver
records an error exactly on the substring match (pipe-definition fetch
hard error; target-table fetch soft error appended to the hard-error
field).  The lookup tools produce exactly these markers, and a legitimate
definition containing either substring is therefore dropped or recorded
as an error. -/
theorem c10_failure_by_substring_and_emptiness :
    (∀ (env : DdlEnv) (p0 p1 p2 : String),
       isStreamOrTempName (pyStrip p1) = false → pyUpper (pyStrip p0) = "TABLE" →
       ((∃ obj effs, processParts env p0 p1 p2 = (.resolved obj, effs)) ↔
         (env.table_ddl (pyStrip p1) ≠ "" ∧
          pyContains (env.table_ddl (pyStrip p1)) "Error" = false ∧
          pyContains (env.table_ddl (pyStrip p1)) "not found" = false))) ∧
    (∀ (env : PipeDetailEnv) (s : PipeState),
       (pyContains env.pipeDdlResult "Error" || pyContains env.pipeDdlResult "not found") = true →
       (get_pipe_details env s).error_message =
         some ("Failed to get DDL for pipe '" ++ s.pipe_schema ++ "."
           ++ s.pipe_name ++ "': " ++ env.pipeDdlResult)) ∧
    (∀ (env : PipeDetailEnv) (s : PipeState) (ct st pp : String),
       s.error_message = none →
       (pyContains env.pipeDdlResult "Error" || pyContains env.pipeDdlResult "not found") = false →
       env.copyIntoMatch = some ct → env.fromStageMatch = some (st, pp) →
       (pyContains (env.tableDdlResult (pyRemoveChar (pyStrip ct) '"')) "Error"
         || pyContains (env.tableDdlResult (pyRemoveChar (pyStrip ct) '"')) "not found") = true →
       (get_pipe_details env s).error_message =
         some ("; " ++ ("Failed to get DDL for target table '"
           ++ pyRemoveChar (pyStrip ct) '"' ++ "': "
           ++ env.tableDdlResult (pyRemoveChar (pyStrip ct) '"')))) ∧
    (pyContains (get_procedure_ddl ProcDdlOutcome.noRows) "not found" = true ∧
     pyContains (get_procedure_ddl (ProcDdlOutcome.raises "timeout")) "Error" = true) := by
  refine ⟨?_, ?_, ?_, by constructor <;> rfl⟩
  · intro env p0 p1 p2 hskip hp0
    constructor
    · rintro ⟨obj, effs, hres⟩
      have hinv := processParts_resolved_inv env p0 p1 p2 obj effs hres
      have hddl := hinv.2.2.2.2.2 (Or.inl hp0)
      rw [← hddl]
      exact hinv.2.2.2.1
    · rintro ⟨hne, herr, hnf⟩
      refine ⟨⟨pyStrip p1, pyUpper (pyStrip p0), pyLower (pyStrip p2),
        env.table_ddl (pyStrip p1)⟩, [.tableDdlFetch (pyStrip p1)], ?_⟩
      simp [processParts, finishEntry, hskip, hp0, hne, herr, hnf]
  · intro env s h
    simp [get_pipe_details, h]
  · intro env s ct st pp hs hok hcopy hfrom hbad
    simp [get_pipe_details, hok, hcopy, hfrom, hbad, hs, pyOrDefault]

/-- C10 witness: a table line against a well-behaved lookup resolves (and
the failure conditions hold vacuously false); a marker-bearing pipe DDL
and a legitimate `Error`-containing table DDL both register errors. -/
theorem c10_failure_by_substring_and_emptiness_witness :
    ((∃ obj effs, processParts ddlEnvGood "TABLE" "DB.S.T" "source" = (.resolved obj, effs)) ↔
      (ddlEnvGood.table_ddl (pyStrip "DB.S.T") ≠ "" ∧
       pyContains (ddlEnvGood.table_ddl (pyStrip "DB.S.T")) "Error" = false ∧
       pyContains (ddlEnvGood.table_ddl (pyStrip "DB.S.T")) "not found" = false)) ∧
    (get_pipe_details pdEnvBadPipe stInit).error_message =
      some ("Failed to get DDL for pipe '" ++ stInit.pipe_schema ++ "."
        ++ stInit.pipe_name ++ "': " ++ pdEnvBadPipe.pipeDdlResult) ∧
    (get_pipe_details pdEnvErrWordTable stInit).error_message =
      some ("; " ++ ("Failed to get DDL for target table '"
        ++ pyRemoveChar (pyStrip "DB.S.TGT") '"' ++ "': "
        ++ pdEnvErrWordTable.tableDdlResult (pyRemoveChar (pyStrip "DB.S.TGT") '"'))) :=
  ⟨c10_failure_by_substring_and_emptiness.1 ddlEnvGood "TABLE" "DB.S.T" "source"
      (by decide) (by decide),
   c10_failure_by_substring_and_emptiness.2.1 pdEnvBadPipe stInit (by decide),
   c10_failure_by_substring_and_emptiness.2.2.1 pdEnvErrWordTable stInit
      "DB.S.TGT" "stage" "feed" rfl (by decide) rfl rfl (by decide)⟩

/-- Truncation statements for distinct tables are distinct. -/
theorem truncQuery_injective : Function.Injective truncQuery := by
  intro a b h
  have hd := congrArg String.data h
  simp only [truncQuery, String.data_append] at hd
  have h2 := List.append_cancel_left (List.append_cancel_right hd)
  cases a; cases b; exact congrArg String.mk h2

/-- The statements issued by the truncation loop are exactly one
truncation per table not already in the carried truncated-tables set. -/
theorem truncateTables_issued (env : SfEnv) (tables : List String)
    (hnd : tables.Nodup) : ∀ tr : List String,
    (truncateTables env tables tr).1 =
      (tables.filter (fun t => decide (t ∉ tr))).map truncQuery := by
  induction tables with
  | nil => intro tr; simp [truncateTables]
  | cons t ts ih =>
    obtain ⟨hni, hnd'⟩ := List.nodup_cons.mp hnd
    intro tr
    by_cases hmem : t ∈ tr
    · simp [truncateTables, hmem, ih hnd' tr]
    · simp only [truncateTables, if_neg hmem]
      rw [ih hnd']
      have hfil : ts.filter
            (fun x => decide (x ∉ (if truncSucceeds env t then tr ++ [t] else tr)))
          = ts.filter (fun x => decide (x ∉ tr)) := by
        apply List.filter_congr
        intro x hx
        have hxt : x ≠ t := fun hxeq => hni (hxeq ▸ hx)
        by_cases hsucc : truncSucceeds env t
        · simp [hsucc, hxt]
        · simp [hsucc]
      rw [hfil]
      simp [hmem]

/-- The truncation loop never removes a table from the truncated set. -/
theorem mem_truncateTables_final_mono (env : SfEnv) (tables : List String) :
    ∀ (tr : List String) (x : String), x ∈ tr →
      x ∈ (truncateTables env tables tr).2 := by
  induction tables with
  | nil => intro tr x hx; simpa [truncateTables] using hx
  | cons t ts ih =>
    intro tr x hx
    by_cases hmem : t ∈ tr
    · simpa [truncateTables, hmem] using ih tr x hx
    · simp only [truncateTables, if_neg hmem]
      apply ih
      by_cases hsucc : truncSucceeds env t
      · simp only [hsucc, if_pos]
        exact List.mem_append_left _ hx
      · simpa [hsucc] using hx

/-- A listed table whose truncation statement succeeds ends up in the
truncated set. -/
theorem mem_truncateTables_final_of_success (env : SfEnv) (tables : List String) :
    ∀ (tr : List String) (x : String), x ∈ tables → truncSucceeds env x = true →
      x ∈ (truncateTables env tables tr).2 := by
  induction tables with
  | nil => intro tr x hx _; simp at hx
  | cons t ts ih =>
    intro tr x hx hs
    rcases List.mem_cons.mp hx with rfl | hx'
    · by_cases hmem : x ∈ tr
      · simp only [truncateTables, if_pos hmem]
        exact mem_truncateTables_final_mono env ts tr x hmem
      · simp only [truncateTables, if_neg hmem, hs, if_pos]
        exact mem_truncateTables_final_mono env ts _ x (by simp)
    · by_cases hmem : t ∈ tr
      · simp only [truncateTables, if_pos hmem]
        exact ih tr x hx' hs
      · simp only [truncateTables, if_neg hmem]
        exact ih _ x hx' hs

/-- When every listed table is already in the carried set, the loop
issues no statement. -/
theorem truncateTables_issued_nil (env : SfEnv) (tables : List String) :
    ∀ tr : List String, (∀ t ∈ tables, t ∈ tr) →
      (truncateTables env tables tr).1 = [] := by
  induction tables with
  | nil => intro tr _; simp [truncateTables]
  | cons t ts ih =>
    intro tr h
    have ht := h t (List.mem_cons_self t ts)
    simp only [truncateTables, if_pos ht]
    exact ih tr fun x hx => h x (List.mem_cons_of_mem t hx)

/-- C1: the claim says re-running Setup with the carried-forward
truncated-tables set issues zero additional truncation statements.  A
table is added to the set only when its truncation statement succeeds, so
when the warehouse rejects the statements the first run adds nothing and
the re-run issues both statements again. -/
theorem c1_rerun_counterexample :
    (run_setup sfDmlFails [tcPair] []).1 =
      [truncQuery "DB.S.SRC", truncQuery "DB.S.TGT"] ∧
    (run_setup sfDmlFails [tcPair] []).2 = [] ∧
    (run_setup sfDmlFails [tcPair] ((run_setup sfDmlFails [tcPair] []).2)).1 =
      [truncQuery "DB.S.SRC", truncQuery "DB.S.TGT"] ∧
    (run_setup sfDmlFails [tcPair] ((run_setup sfDmlFails [tcPair] []).2)).1 ≠ [] := by
  refine ⟨rfl, rfl, rfl, by decide⟩

/-- C1 (amended): the Setup phase issues exactly one truncation statement
per table of the source∪target union not already in the carried set (so
each table is truncated at most once per run), a table is added to the
set exactly on success, and re-running Setup with the resulting set
issues zero additional statements provided every truncation of the union
succeeded — a failed truncation is retried on the re-run. -/
theorem c1_truncate_once_amended (env : SfEnv) (uts : List TestCase) (tr : List String) :
    ((run_setup env uts tr).1 =
      ((all_tables_to_truncate uts).filter (fun t => decide (t ∉ tr))).map truncQuery) ∧
    (run_setup env uts tr).1.Nodup ∧
    (∀ t, t ∈ all_tables_to_truncate uts → truncSucceeds env t = true →
        t ∈ (run_setup env uts tr).2) ∧
    ((∀ t ∈ all_tables_to_truncate uts, truncSucceeds env t = true) →
      (run_setup env uts ((run_setup env uts tr).2)).1 = []) := by
  have hnd : (all_tables_to_truncate uts).Nodup := List.nodup_dedup _
  refine ⟨truncateTables_issued env _ hnd tr, ?_, ?_, ?_⟩
  · show (truncateTables env (all_tables_to_truncate uts) tr).1.Nodup
    rw [truncateTables_issued env _ hnd tr]
    exact ((hnd.filter _).map truncQuery_injective)
  · intro t ht hs
    exact mem_truncateTables_final_of_success env _ tr t ht hs
  · intro hall
    apply truncateTables_issued_nil
    intro t ht
    exact mem_truncateTables_final_of_success env _ tr t ht (hall t ht)

/-- C1 witness: on a warehouse that accepts every statement, a fixture's
source table lands in the truncated set and the re-run issues nothing. -/
theorem c1_truncate_once_amended_witness :
    ("DB.S.SRC" ∈ (run_setup sfAllOk [tcPair] []).2) ∧
    (run_setup sfAllOk [tcPair] ((run_setup sfAllOk [tcPair] []).2)).1 = [] :=
  ⟨(c1_truncate_once_amended sfAllOk [tcPair] []).2.2.1 "DB.S.SRC" (by decide) (by decide),
   (c1_truncate_once_amended sfAllOk [tcPair] []).2.2.2 (by decide)⟩

/-- C3: for a fixture that passes field validation and whose insert,
procedure call, and validation query all succeed (the validation result
differing from the failure sentinel −1), the result is `Pass` exactly
when the actual count equals the expected count as integers, and `Fail`
otherwise with a detail naming both values. -/
theorem c3_exact_count_comparison (env : SfEnv) (ps pn : String) (i : Nat)
    (tc : TestCase) (e a : Int)
    (hreq : requiredOk tc = true)
    (hparse : pyInt (tc.expected_count.getD "") = some e)
    (hins : (execute_snowflake_dml (env.dml (tc.insert_query.getD ""))).truthy = true)
    (hcall : (execute_snowflake_dml (env.dml ("CALL " ++ ps ++ "." ++ pn ++ "();"))).truthy = true)
    (ha : execute_snowflake_query (env.query (tc.validation_query.getD "")) = a)
    (hok : a ≠ -1) :
    ((runTestCase env ps pn i tc).1.result = if a = e then "Pass" else "Fail") ∧
    ((runTestCase env ps pn i tc).1.details =
      if a = e then "Test passed."
      else "Expected count " ++ toString e ++ ", but got " ++ toString a ++ ".") := by
  simp only [runTestCase, hreq, hparse, hins, hcall, ha, Bool.not_true, Bool.false_eq_true,
    if_false, ite_false]
  rw [if_neg hok]
  by_cases hae : a = e
  · simp [hae]
  · simp [hae]

/-- C3 witness: a fully-executing fixture expecting count 1 against a
warehouse returning count 1 passes. -/
theorem c3_exact_count_comparison_witness :
    ((runTestCase sfAllOk "S" "P" 0 tcGood).1.result =
      if (1 : Int) = 1 then "Pass" else "Fail") ∧
    ((runTestCase sfAllOk "S" "P" 0 tcGood).1.details =
      if (1 : Int) = 1 then "Test passed."
      else "Expected count " ++ toString (1 : Int) ++ ", but got "
        ++ toString (1 : Int) ++ ".") :=
  c3_exact_count_comparison sfAllOk "S" "P" 0 tcGood 1 1 (by decide) (by decide)
    (by decide) (by decide) rfl (by decide)

/-- C4: when the Pipe Detail Resolver finds no `FROM @stage` clause it
sets the hard-error field, and every downstream stage then skips its
work: the Synthetic Feed Generator returns the state unchanged with no
oracle call, and the Upload & Ingestion Verifier performs no upload,
no wait, and no warehouse query, returning a well-formed state whose
final message reports the test was skipped due to errors. -/
theorem c4_hard_error_short_circuits (dEnv : PipeDetailEnv) (gEnv : CsvGenEnv)
    (vEnv : PipeEnv) (s0 : PipeState) (ct : String)
    (hddl : (pyContains dEnv.pipeDdlResult "Error"
      || pyContains dEnv.pipeDdlResult "not found") = false)
    (hcopy : dEnv.copyIntoMatch = some ct)
    (hfrom : dEnv.fromStageMatch = none) :
    (get_pipe_details dEnv s0).error_message =
      some "Could not extract Azure folder path (FROM @.../path/) from Pipe DDL using regex." ∧
    generate_csv_data gEnv (get_pipe_details dEnv s0) = (get_pipe_details dEnv s0, []) ∧
    (upload_and_verify_pipe vEnv (generate_csv_data gEnv (get_pipe_details dEnv s0)).1).2 = [] ∧
    (upload_and_verify_pipe vEnv (generate_csv_data gEnv (get_pipe_details dEnv s0)).1).1 =
      { (get_pipe_details dEnv s0) with
          target_table_data_after_test := some []
          final_message := some ("Test skipped due to errors: "
            ++ "Could not extract Azure folder path (FROM @.../path/) from Pipe DDL using regex.") } := by
  have herr : (get_pipe_details dEnv s0).error_message =
      some "Could not extract Azure folder path (FROM @.../path/) from Pipe DDL using regex." := by
    simp [get_pipe_details, hddl, hcopy, hfrom]
  have htruthy : optStrTruthy (get_pipe_details dEnv s0).error_message = true := by
    rw [herr]
    decide
  have hgen : generate_csv_data gEnv (get_pipe_details dEnv s0) =
      (get_pipe_details dEnv s0, []) := by
    simp [generate_csv_data, htruthy]
  refine ⟨herr, hgen, ?_, ?_⟩
  · rw [hgen]
    simp [upload_and_verify_pipe, htruthy]
  · rw [hgen]
    simp [upload_and_verify_pipe, htruthy]
    simp [herr]

/-- C4 witness: a concrete pipe whose definition has a `COPY INTO` target
but no `FROM @stage` clause, against collaborators that would otherwise
succeed. -/
theorem c4_hard_error_short_circuits_witness :
    (get_pipe_details pdEnvNoFrom stInit).error_message =
      some "Could not extract Azure folder path (FROM @.../path/) from Pipe DDL using regex." ∧
    generate_csv_data csvEnvOk (get_pipe_details pdEnvNoFrom stInit) =
      (get_pipe_details pdEnvNoFrom stInit, []) ∧
    (upload_and_verify_pipe pipeEnvAllOk
      (generate_csv_data csvEnvOk (get_pipe_details pdEnvNoFrom stInit)).1).2 = [] ∧
    (upload_and_verify_pipe pipeEnvAllOk
      (generate_csv_data csvEnvOk (get_pipe_details pdEnvNoFrom stInit)).1).1 =
      { (get_pipe_details pdEnvNoFrom stInit) with
          target_table_data_after_test := some []
          final_message := some ("Test skipped due to errors: "
            ++ "Could not extract Azure folder path (FROM @.../path/) from Pipe DDL using regex.") } :=
  c4_hard_error_short_circuits pdEnvNoFrom csvEnvOk pipeEnvAllOk stInit "DB.S.TGT"
    (by decide) rfl rfl

end PFE
